import Mathlib

/-!
Verification of `src/ADV_PAPAGAYO/script.js` (user-data fetching and
rendering pipeline) against its natural-language specification.

The JavaScript source is shallowly embedded: strings become `String` /
`List Char`, the DOM operations become an explicit `Action` trace, the
transport layer (browser `fetch`, `AbortController`, JSON parsing) is a
`TransportEvent` value describing what the environment did, and exceptions
become `Except String`.
-/

namespace Script

/-! ## Character constants

Named constants for the three escaped characters whose literal form is
awkward inside the development; all other characters appear literally. -/

/-- The double-quote character (code point 34). -/
def quot : Char := Char.ofNat 34

/-- The apostrophe character (code point 39). -/
def apos : Char := Char.ofNat 39

/-- The backtick character (code point 96). -/
def btick : Char := Char.ofNat 96

/-! ## escapeHTML (script.js lines 246-259)

The source performs seven sequential global single-character
replacements, ampersand first:
`.replace(/&/g,'&amp;').replace(/</g,'&lt;').replace(/>/g,'&gt;')
 .replace(/"/g,'&quot;').replace(/'/g,'&#039;').replace(/`/g,'&#96;')
 .replace(/\//g,'&#47;')`, preceded by `if (!unsafe) return ''` (for a
string argument, falsy means empty). -/

/-- One global single-character replacement pass, the embedding of
`String.prototype.replace` with a single-character global regex. -/
def replaceChar (t : Char) (r : List Char) : List Char → List Char
  | [] => []
  | c :: cs => (if c = t then r else [c]) ++ replaceChar t r cs

/-- The seven replacement passes of `escapeHTML`, applied in source order
(ampersand innermost, i.e. first). -/
def escapePasses (l : List Char) : List Char :=
  replaceChar '/' "&#47;".data
    (replaceChar btick "&#96;".data
      (replaceChar apos "&#039;".data
        (replaceChar quot "&quot;".data
          (replaceChar '>' "&gt;".data
            (replaceChar '<' "&lt;".data
              (replaceChar '&' "&amp;".data l))))))

/-- `escapeHTML` from script.js lines 246-259: the falsy guard (which for
a string argument fires exactly on the empty string) followed by the
seven replacement passes. -/
def escapeHTML (s : String) : String :=
  if s = "" then "" else String.mk (escapePasses s.data)

/-- Per-character normal form of the seven passes: what one input
character contributes to the escaped output. -/
def escChar (c : Char) : List Char :=
  if c = '&' then ['&', 'a', 'm', 'p', ';']
  else if c = '<' then ['&', 'l', 't', ';']
  else if c = '>' then ['&', 'g', 't', ';']
  else if c = quot then ['&', 'q', 'u', 'o', 't', ';']
  else if c = apos then ['&', '#', '0', '3', '9', ';']
  else if c = btick then ['&', '#', '9', '6', ';']
  else if c = '/' then ['&', '#', '4', '7', ';']
  else [c]

/-- The characters `escapeHTML` replaces other than the ampersand. -/
def nonAmpSpecials : List Char := ['<', '>', quot, apos, btick, '/']

/-- Modelled from the spec: the "standard decoder" referenced by the
round-trip property is not part of the repository; this decoder replaces
each of the seven entities produced by `escapeHTML`
(`&amp; &lt; &gt; &quot; &#039; &#96; &#47;`) by the character it
denotes and leaves every other character alone. -/
def unescape : List Char → List Char
  | [] => []
  | c :: rest =>
    if c = '&' then
      if rest.take 4 = ['a', 'm', 'p', ';'] then '&' :: unescape (rest.drop 4)
      else if rest.take 3 = ['l', 't', ';'] then '<' :: unescape (rest.drop 3)
      else if rest.take 3 = ['g', 't', ';'] then '>' :: unescape (rest.drop 3)
      else if rest.take 5 = ['q', 'u', 'o', 't', ';'] then quot :: unescape (rest.drop 5)
      else if rest.take 5 = ['#', '0', '3', '9', ';'] then apos :: unescape (rest.drop 5)
      else if rest.take 4 = ['#', '9', '6', ';'] then btick :: unescape (rest.drop 4)
      else if rest.take 4 = ['#', '4', '7', ';'] then '/' :: unescape (rest.drop 4)
      else c :: unescape rest
    else c :: unescape rest
termination_by l => l.length
decreasing_by all_goals simp [List.length_drop]; all_goals omega

/-! ### Lemmas about the escaping passes -/

theorem replaceChar_append (t : Char) (r : List Char) (a b : List Char) :
    replaceChar t r (a ++ b) = replaceChar t r a ++ replaceChar t r b := by
  induction a with
  | nil => rfl
  | cons c cs ih => simp [replaceChar, ih]

theorem escapePasses_append (a b : List Char) :
    escapePasses (a ++ b) = escapePasses a ++ escapePasses b := by
  simp [escapePasses, replaceChar_append]

theorem escapePasses_single (c : Char) : escapePasses [c] = escChar c := by
  by_cases h1 : c = '&'
  · subst h1; decide
  by_cases h2 : c = '<'
  · subst h2; decide
  by_cases h3 : c = '>'
  · subst h3; decide
  by_cases h4 : c = quot
  · subst h4; decide
  by_cases h5 : c = apos
  · subst h5; decide
  by_cases h6 : c = btick
  · subst h6; decide
  by_cases h7 : c = '/'
  · subst h7; decide
  simp [escapePasses, replaceChar, escChar, h1, h2, h3, h4, h5, h6, h7]

theorem escapePasses_eq_flatMap (l : List Char) :
    escapePasses l = l.flatMap escChar := by
  induction l with
  | nil => rfl
  | cons c cs ih =>
    calc escapePasses (c :: cs) = escapePasses ([c] ++ cs) := rfl
    _ = escapePasses [c] ++ escapePasses cs := escapePasses_append [c] cs
    _ = escChar c ++ cs.flatMap escChar := by rw [escapePasses_single, ih]
    _ = (c :: cs).flatMap escChar := by simp

theorem escapeHTML_data (s : String) :
    (escapeHTML s).data = escapePasses s.data := by
  by_cases h : s = ""
  · subst h; rfl
  · simp [escapeHTML, h]

/-! ### Lemmas about the decoder -/

theorem unescape_cons_of_ne (c : Char) (h : c ≠ '&') (l : List Char) :
    unescape (c :: l) = c :: unescape l := by
  rw [unescape]
  exact if_neg h

theorem unescape_amp (t : List Char) :
    unescape ('&' :: 'a' :: 'm' :: 'p' :: ';' :: t) = '&' :: unescape t := by
  have h1 : List.take 4 ('a' :: 'm' :: 'p' :: ';' :: t) = ['a', 'm', 'p', ';'] := rfl
  have h2 : List.drop 4 ('a' :: 'm' :: 'p' :: ';' :: t) = t := rfl
  rw [unescape, if_pos rfl, if_pos h1, h2]

theorem unescape_lt (t : List Char) :
    unescape ('&' :: 'l' :: 't' :: ';' :: t) = '<' :: unescape t := by
  have hn1 : ¬ (List.take 4 ('l' :: 't' :: ';' :: t) = ['a', 'm', 'p', ';']) := by simp
  have h1 : List.take 3 ('l' :: 't' :: ';' :: t) = ['l', 't', ';'] := rfl
  have h2 : List.drop 3 ('l' :: 't' :: ';' :: t) = t := rfl
  rw [unescape, if_pos rfl, if_neg hn1, if_pos h1, h2]

theorem unescape_gt (t : List Char) :
    unescape ('&' :: 'g' :: 't' :: ';' :: t) = '>' :: unescape t := by
  have hn1 : ¬ (List.take 4 ('g' :: 't' :: ';' :: t) = ['a', 'm', 'p', ';']) := by simp
  have hn2 : ¬ (List.take 3 ('g' :: 't' :: ';' :: t) = ['l', 't', ';']) := by simp
  have h1 : List.take 3 ('g' :: 't' :: ';' :: t) = ['g', 't', ';'] := rfl
  have h2 : List.drop 3 ('g' :: 't' :: ';' :: t) = t := rfl
  rw [unescape, if_pos rfl, if_neg hn1, if_neg hn2, if_pos h1, h2]

theorem unescape_quot (t : List Char) :
    unescape ('&' :: 'q' :: 'u' :: 'o' :: 't' :: ';' :: t) = quot :: unescape t := by
  have hn1 : ¬ (List.take 4 ('q' :: 'u' :: 'o' :: 't' :: ';' :: t) = ['a', 'm', 'p', ';']) := by
    simp
  have hn2 : ¬ (List.take 3 ('q' :: 'u' :: 'o' :: 't' :: ';' :: t) = ['l', 't', ';']) := by simp
  have hn3 : ¬ (List.take 3 ('q' :: 'u' :: 'o' :: 't' :: ';' :: t) = ['g', 't', ';']) := by simp
  have h1 : List.take 5 ('q' :: 'u' :: 'o' :: 't' :: ';' :: t) = ['q', 'u', 'o', 't', ';'] := rfl
  have h2 : List.drop 5 ('q' :: 'u' :: 'o' :: 't' :: ';' :: t) = t := rfl
  rw [unescape, if_pos rfl, if_neg hn1, if_neg hn2, if_neg hn3, if_pos h1, h2]

theorem unescape_apos (t : List Char) :
    unescape ('&' :: '#' :: '0' :: '3' :: '9' :: ';' :: t) = apos :: unescape t := by
  have hn1 : ¬ (List.take 4 ('#' :: '0' :: '3' :: '9' :: ';' :: t) = ['a', 'm', 'p', ';']) := by
    simp
  have hn2 : ¬ (List.take 3 ('#' :: '0' :: '3' :: '9' :: ';' :: t) = ['l', 't', ';']) := by simp
  have hn3 : ¬ (List.take 3 ('#' :: '0' :: '3' :: '9' :: ';' :: t) = ['g', 't', ';']) := by simp
  have hn4 : ¬ (List.take 5 ('#' :: '0' :: '3' :: '9' :: ';' :: t) =
      ['q', 'u', 'o', 't', ';']) := by simp
  have h1 : List.take 5 ('#' :: '0' :: '3' :: '9' :: ';' :: t) = ['#', '0', '3', '9', ';'] := rfl
  have h2 : List.drop 5 ('#' :: '0' :: '3' :: '9' :: ';' :: t) = t := rfl
  rw [unescape, if_pos rfl, if_neg hn1, if_neg hn2, if_neg hn3, if_neg hn4, if_pos h1, h2]

theorem unescape_btick (t : List Char) :
    unescape ('&' :: '#' :: '9' :: '6' :: ';' :: t) = btick :: unescape t := by
  have hn1 : ¬ (List.take 4 ('#' :: '9' :: '6' :: ';' :: t) = ['a', 'm', 'p', ';']) := by simp
  have hn2 : ¬ (List.take 3 ('#' :: '9' :: '6' :: ';' :: t) = ['l', 't', ';']) := by simp
  have hn3 : ¬ (List.take 3 ('#' :: '9' :: '6' :: ';' :: t) = ['g', 't', ';']) := by simp
  have hn4 : ¬ (List.take 5 ('#' :: '9' :: '6' :: ';' :: t) = ['q', 'u', 'o', 't', ';']) := by
    simp
  have hn5 : ¬ (List.take 5 ('#' :: '9' :: '6' :: ';' :: t) = ['#', '0', '3', '9', ';']) := by
    simp
  have h1 : List.take 4 ('#' :: '9' :: '6' :: ';' :: t) = ['#', '9', '6', ';'] := rfl
  have h2 : List.drop 4 ('#' :: '9' :: '6' :: ';' :: t) = t := rfl
  rw [unescape, if_pos rfl, if_neg hn1, if_neg hn2, if_neg hn3, if_neg hn4, if_neg hn5,
    if_pos h1, h2]

theorem unescape_slash (t : List Char) :
    unescape ('&' :: '#' :: '4' :: '7' :: ';' :: t) = '/' :: unescape t := by
  have hn1 : ¬ (List.take 4 ('#' :: '4' :: '7' :: ';' :: t) = ['a', 'm', 'p', ';']) := by simp
  have hn2 : ¬ (List.take 3 ('#' :: '4' :: '7' :: ';' :: t) = ['l', 't', ';']) := by simp
  have hn3 : ¬ (List.take 3 ('#' :: '4' :: '7' :: ';' :: t) = ['g', 't', ';']) := by simp
  have hn4 : ¬ (List.take 5 ('#' :: '4' :: '7' :: ';' :: t) = ['q', 'u', 'o', 't', ';']) := by
    simp
  have hn5 : ¬ (List.take 5 ('#' :: '4' :: '7' :: ';' :: t) = ['#', '0', '3', '9', ';']) := by
    simp
  have hn6 : ¬ (List.take 4 ('#' :: '4' :: '7' :: ';' :: t) = ['#', '9', '6', ';']) := by simp
  have h1 : List.take 4 ('#' :: '4' :: '7' :: ';' :: t) = ['#', '4', '7', ';'] := rfl
  have h2 : List.drop 4 ('#' :: '4' :: '7' :: ';' :: t) = t := rfl
  rw [unescape, if_pos rfl, if_neg hn1, if_neg hn2, if_neg hn3, if_neg hn4, if_neg hn5,
    if_neg hn6, if_pos h1, h2]

theorem escChar_no_special (x : Char) :
    ∀ c ∈ escChar x, c ∉ nonAmpSpecials := by
  by_cases h1 : x = '&'
  · subst h1; decide
  by_cases h2 : x = '<'
  · subst h2; decide
  by_cases h3 : x = '>'
  · subst h3; decide
  by_cases h4 : x = quot
  · subst h4; decide
  by_cases h5 : x = apos
  · subst h5; decide
  by_cases h6 : x = btick
  · subst h6; decide
  by_cases h7 : x = '/'
  · subst h7; decide
  intro c hc
  simp [escChar, h1, h2, h3, h4, h5, h6, h7] at hc
  subst hc
  simp [nonAmpSpecials, h2, h3, h4, h5, h6, h7]

theorem unescape_flatMap_escChar (l : List Char) :
    unescape (l.flatMap escChar) = l := by
  induction l with
  | nil => simp [unescape]
  | cons c cs ih =>
    rw [List.flatMap_cons]
    by_cases h1 : c = '&'
    · subst h1
      have he : escChar '&' = ['&', 'a', 'm', 'p', ';'] := by decide
      rw [he]
      simp only [List.cons_append, List.nil_append]
      rw [unescape_amp, ih]
    by_cases h2 : c = '<'
    · subst h2
      have he : escChar '<' = ['&', 'l', 't', ';'] := by decide
      rw [he]
      simp only [List.cons_append, List.nil_append]
      rw [unescape_lt, ih]
    by_cases h3 : c = '>'
    · subst h3
      have he : escChar '>' = ['&', 'g', 't', ';'] := by decide
      rw [he]
      simp only [List.cons_append, List.nil_append]
      rw [unescape_gt, ih]
    by_cases h4 : c = quot
    · subst h4
      have he : escChar quot = ['&', 'q', 'u', 'o', 't', ';'] := by decide
      rw [he]
      simp only [List.cons_append, List.nil_append]
      rw [unescape_quot, ih]
    by_cases h5 : c = apos
    · subst h5
      have he : escChar apos = ['&', '#', '0', '3', '9', ';'] := by decide
      rw [he]
      simp only [List.cons_append, List.nil_append]
      rw [unescape_apos, ih]
    by_cases h6 : c = btick
    · subst h6
      have he : escChar btick = ['&', '#', '9', '6', ';'] := by decide
      rw [he]
      simp only [List.cons_append, List.nil_append]
      rw [unescape_btick, ih]
    by_cases h7 : c = '/'
    · subst h7
      have he : escChar '/' = ['&', '#', '4', '7', ';'] := by decide
      rw [he]
      simp only [List.cons_append, List.nil_append]
      rw [unescape_slash, ih]
    have he : escChar c = [c] := by
      simp [escChar, h1, h2, h3, h4, h5, h6, h7]
    rw [he]
    simp only [List.cons_append, List.nil_append]
    rw [unescape_cons_of_ne c h1, ih]

/-! ### Claim C1 -/

/-- C1, counterexample: the claim says that for every string containing one
of the escaped characters the escaped output contains no literal occurrence
of that character.  This fails for the ampersand: `escapeHTML "&"` is
`"&amp;"`, which still contains a literal `&`. -/
theorem escapeHTML_amp_literal_remains :
    '&' ∈ ("&" : String).data ∧ '&' ∈ (escapeHTML "&").data ∧ escapeHTML "&" = "&amp;" := by
  decide

theorem escapeHTML_no_nonAmp (s : String) :
    ∀ c ∈ nonAmpSpecials, c ∉ (escapeHTML s).data := by
  rw [escapeHTML_data, escapePasses_eq_flatMap]
  intro c hc hm
  rcases List.mem_flatMap.mp hm with ⟨x, _, hcx⟩
  exact escChar_no_special x c hcx hc

theorem unescape_escapeHTML (s : String) :
    unescape (escapeHTML s).data = s.data := by
  rw [escapeHTML_data, escapePasses_eq_flatMap]
  exact unescape_flatMap_escChar s.data

/-- C1 (amended): for every string, the escaped output contains no literal
occurrence of any of the escaped characters other than the ampersand (the
ampersand necessarily survives inside the entities), and decoding the
escaped output with the standard entity decoder yields the original
string. -/
theorem escapeHTML_safe_and_roundtrip (s : String) :
    (∀ c ∈ nonAmpSpecials, c ∉ (escapeHTML s).data) ∧
    unescape (escapeHTML s).data = s.data :=
  ⟨escapeHTML_no_nonAmp s, unescape_escapeHTML s⟩

/-- Witness for C1: instantiation at the string `"a<b"` and the character
`<`. -/
theorem escapeHTML_safe_and_roundtrip_witness :
    ('<' ∉ (escapeHTML "a<b").data) ∧ unescape (escapeHTML "a<b").data = ("a<b" : String).data :=
  ⟨(escapeHTML_safe_and_roundtrip "a<b").1 '<' (by decide),
   (escapeHTML_safe_and_roundtrip "a<b").2⟩

/-! ## Data model (spec section 3, script.js lines 136-172)

User records arrive as untrusted JSON: every field is optional and not
guaranteed well-typed, so a present field is modelled as a JavaScript
primitive value (number or string).  JavaScript truthiness on these
values: `0` and the empty string are falsy, everything else is truthy;
template interpolation applies `String(…)`. -/

/-- A primitive JavaScript value held by a user-record field. -/
inductive JsVal
  | num (n : Int)
  | str (s : String)
deriving DecidableEq

/-- JavaScript truthiness of a primitive value: `0` and `""` are falsy. -/
def JsVal.truthy : JsVal → Bool
  | .num n => n ≠ 0
  | .str s => s ≠ ""

/-- `String(v)`: how a primitive value prints inside a template string. -/
def JsVal.display : JsVal → String
  | .num n => toString n
  | .str s => s

/-- The optional nested `address` object with its optional `city` field. -/
structure Address where
  city : Option JsVal
deriving DecidableEq

/-- One fetched user record; every field is optional untrusted input. -/
structure UserRecord where
  id : Option JsVal
  name : Option JsVal
  username : Option JsVal
  email : Option JsVal
  address : Option Address
deriving DecidableEq

/-- The embedding of the JavaScript idiom `x || fallback` followed by
string interpolation: a present truthy value displays itself, a missing
or falsy value displays the fallback string. -/
def orFallback (v : Option JsVal) (fb : String) : String :=
  match v with
  | some x => if x.truthy then x.display else fb
  | none => fb

/-- The card built by `createUserCard` (script.js lines 136-172): the id
badge is assigned via `textContent` (plain text, no escaping), the other
four fields are assigned via `innerHTML` with `escapeHTML` applied. -/
structure CardView where
  idText : String
  nameHTML : String
  emailHTML : String
  cityHTML : String
  usernameHTML : String
deriving DecidableEq

/-- `createUserCard` from script.js lines 136-172. -/
def createUserCard (user : UserRecord) : CardView :=
  let idText := "ID: " ++ orFallback user.id "N/A"
  let name := orFallback user.name "Name not available"
  let email := orFallback user.email "Email not available"
  let city := orFallback (user.address.bind Address.city) "City not available"
  let username := orFallback user.username "Username not available"
  { idText := idText
    nameHTML := "👤 " ++ escapeHTML name
    emailHTML := "<i>📧</i> Email: " ++ escapeHTML email
    cityHTML := "<i>🏙️</i> City: " ++ escapeHTML city
    usernameHTML := "<i>🔰</i> Username: " ++ escapeHTML username }

/-! ## Fetcher (script.js lines 55-100)

The browser transport is modelled as a single `TransportEvent` describing
what the environment did for this request: the 10-second timer fired
first (`AbortController.abort` cancels the in-flight request and `fetch`
rejects with an `AbortError`), the transport failed before any response
(`fetch` rejects with a `TypeError` carrying the underlying message), or
a response arrived with a status, a status text and a body parse
outcome.  Exceptions become `Except.error` carrying the thrown
message. -/

/-- How the body of an arrived response parses (script.js lines 80-85):
a JSON array whose elements become user records, valid JSON that is not
an array, or malformed JSON (in which case `response.json()` throws with
the given message). -/
inductive BodyParse
  | arr (users : List UserRecord)
  | nonArray
  | malformed (msg : String)
deriving DecidableEq

/-- What the environment did for the single GET request. -/
inductive TransportEvent
  | timeout
  | networkFailure (msg : String)
  | response (status : Nat) (statusText : String) (body : BodyParse)
deriving DecidableEq

/-- The hard timeout of the request in milliseconds (script.js line 62). -/
def timeoutMs : Nat := 10000

/-- `Response.ok`: status in the inclusive range 200-299. -/
def responseOk (status : Nat) : Bool := 200 ≤ status && status ≤ 299

/-- `fetchUsers` from script.js lines 55-100.  The errors thrown inside
the `try` block (`HTTP <status>: <statusText>`, `Invalid data format:
Expected an array of users`, and a `response.json()` parse error) are
caught by the function's own `catch`; their `name` is neither
`AbortError` nor `TypeError`, so they are re-thrown wrapped as
`Failed to fetch users: <message>`.  An `AbortError` (timeout) and a
`TypeError` (network failure) are replaced by the two fixed messages. -/
def fetchUsers : TransportEvent → Except String (List UserRecord)
  | .timeout => .error "Request timeout: The server took too long to respond"
  | .networkFailure _ => .error "Network error: Please check your internet connection"
  | .response status statusText body =>
    if !responseOk status then
      .error ("Failed to fetch users: HTTP " ++ toString status ++ ": " ++ statusText)
    else
      match body with
      | .arr users => .ok users
      | .nonArray => .error "Failed to fetch users: Invalid data format: Expected an array of users"
      | .malformed m => .error ("Failed to fetch users: " ++ m)

/-! ## Display surface and renderer (script.js lines 102-239)

The DOM operations performed by the script become an explicit trace of
`Action`s. -/

/-- One operation on the display surface. -/
inductive Action
  | showLoading
  | hideLoading
  | hideError
  | clearContainer
  | showError (msg : String)
  | showEmptyMessage
  | showCard (c : CardView)
deriving DecidableEq

/-- Does the pattern occur as a prefix of the list? Helper for
`String.prototype.includes`. -/
def matchesAt : List Char → List Char → Bool
  | [], _ => true
  | _ :: _, [] => false
  | p :: ps, c :: cs => p = c && matchesAt ps cs

/-- Substring occurrence on character lists. -/
def includesL (hay pat : List Char) : Bool :=
  match hay with
  | [] => pat.isEmpty
  | _ :: t => matchesAt pat hay || includesL t pat

/-- `String.prototype.includes`: does `pat` occur as a contiguous
substring of `hay`? -/
def includes (hay pat : String) : Bool := includesL hay.data pat.data

/-- `displayUsers` from script.js lines 106-129: clear the container,
then either the no-users message or one card per user in input order. -/
def displayUsers (users : List UserRecord) : List Action :=
  [Action.clearContainer] ++
    (if users = [] then [Action.showEmptyMessage]
     else users.map (fun u => Action.showCard (createUserCard u)))

/-- `handleError` from script.js lines 222-239: pick the user-facing
sentence by substring tests on the error message (`Failed to fetch`
first, then `HTTP`, then `timeout`, otherwise the generic sentence) and
show it prefixed with the warning marker. -/
def handleError (errMsg : String) : List Action :=
  let userMessage :=
    if includes errMsg "Failed to fetch" then
      "Unable to connect to the server. Please check your internet connection."
    else if includes errMsg "HTTP" then
      "Server error. Please try again later."
    else if includes errMsg "timeout" then
      "Request timed out. Please check your connection and try again."
    else "An unexpected error occurred. Please try again."
  [Action.showError ("⚠️ " ++ userMessage)]

/-- `fetchAndDisplayUsers` from script.js lines 25-48.  `renderFault`
models an exception thrown while rendering: `some (k, m)` means the
rendering stopped after its first `k` display operations and threw an
error with message `m`, which the `catch` block hands to `handleError`;
the `finally` block hides the loading indicator on every path. -/
def fetchAndDisplayUsers (ev : TransportEvent) (renderFault : Option (Nat × String)) :
    List Action :=
  [Action.showLoading, Action.hideError, Action.clearContainer] ++
    (match fetchUsers ev with
     | .ok users =>
       match renderFault with
       | none => displayUsers users
       | some (k, m) => (displayUsers users).take k ++ handleError m
     | .error msg => handleError msg) ++
    [Action.hideLoading]

/-- Is the action the hide-loading operation? -/
def isHideLoading : Action → Bool
  | .hideLoading => true
  | _ => false

/-- Is the action a card emission? -/
def isShowCard : Action → Bool
  | .showCard _ => true
  | _ => false

/-- Is the action an error banner emission? -/
def isShowError : Action → Bool
  | .showError _ => true
  | _ => false

/-- Is the action the no-users message? -/
def isShowEmpty : Action → Bool
  | .showEmptyMessage => true
  | _ => false

/-- The visibility of the loading indicator after a trace has run,
starting from the given initial visibility. -/
def loadingAfter (init : Bool) (tr : List Action) : Bool :=
  tr.foldl
    (fun st a =>
      match a with
      | Action.showLoading => true
      | Action.hideLoading => false
      | _ => st) init

/-! ### Claims C2, C3, C9 (error classification) -/

/-- C2, code bug: on a transport failure before any response (the browser
rejects with a `TypeError` whose message is `Failed to fetch`),
`fetchUsers` replaces the message with `Network error: Please check your
internet connection`, which matches none of `handleError`'s substring
tests, so the pipeline shows the generic sentence instead of the
network-unreachable sentence required by the claim. -/
theorem network_failure_shows_generic_sentence :
    fetchAndDisplayUsers (TransportEvent.networkFailure "Failed to fetch") none =
      [Action.showLoading, Action.hideError, Action.clearContainer,
       Action.showError "⚠️ An unexpected error occurred. Please try again.",
       Action.hideLoading] ∧
    Action.showError
        "⚠️ Unable to connect to the server. Please check your internet connection." ∉
      fetchAndDisplayUsers (TransportEvent.networkFailure "Failed to fetch") none := by
  decide

/-- C3, code bug: a response whose body is valid JSON but not an array
makes `fetchUsers` throw `Invalid data format: Expected an array of
users`, which its own `catch` re-throws as `Failed to fetch users: …`;
`handleError` tests `Failed to fetch` first, so the pipeline shows the
network-unreachable sentence instead of the unexpected-error sentence
required by the claim. -/
theorem non_array_shows_network_sentence :
    fetchAndDisplayUsers (TransportEvent.response 200 "OK" BodyParse.nonArray) none =
      [Action.showLoading, Action.hideError, Action.clearContainer,
       Action.showError
         "⚠️ Unable to connect to the server. Please check your internet connection.",
       Action.hideLoading] ∧
    Action.showError "⚠️ An unexpected error occurred. Please try again." ∉
      fetchAndDisplayUsers (TransportEvent.response 200 "OK" BodyParse.nonArray) none := by
  decide

/-- C9: when the 10,000 ms timer fires before any response, the abort of
the in-flight request surfaces as an `AbortError`, `fetchUsers` converts
it to the timeout message, and the pipeline shows exactly one
`ShowError` carrying the timeout sentence. -/
theorem timeout_shows_timeout_sentence :
    timeoutMs = 10000 ∧
    fetchAndDisplayUsers TransportEvent.timeout none =
      [Action.showLoading, Action.hideError, Action.clearContainer,
       Action.showError "⚠️ Request timed out. Please check your connection and try again.",
       Action.hideLoading] := by
  decide

/-! ### Claims C6, C7 (rendering a successful outcome) -/

/-- C6: rendering a successful outcome with an empty record list emits
exactly one `ShowEmptyMessage` and no `ShowCard` or `ShowError`. -/
theorem empty_list_renders_empty_message :
    (displayUsers []).countP isShowEmpty = 1 ∧
    (displayUsers []).countP isShowCard = 0 ∧
    (displayUsers []).countP isShowError = 0 := by
  decide

/-- C7: for a non-empty record list, rendering the successful outcome
emits exactly one `ShowCard` per record, in input order. -/
theorem nonempty_list_renders_cards_in_order (us : List UserRecord) (h : us ≠ []) :
    (displayUsers us).filter isShowCard =
      us.map (fun u => Action.showCard (createUserCard u)) ∧
    (displayUsers us).countP isShowCard = us.length := by
  constructor
  · simp only [displayUsers, if_neg h, List.cons_append, List.nil_append, List.filter_cons]
    have hclear : isShowCard Action.clearContainer = false := rfl
    rw [hclear]
    simp only [Bool.false_eq_true, if_false, List.filter_map]
    have hall : List.filter (isShowCard ∘ fun u => Action.showCard (createUserCard u)) us
        = us := by
      apply List.filter_eq_self.mpr
      intro a _
      rfl
    rw [hall]
  · simp only [displayUsers, if_neg h, List.cons_append, List.nil_append, List.countP_cons]
    have hclear : isShowCard Action.clearContainer = false := rfl
    rw [hclear]
    simp only [if_false, List.countP_map]
    have hall : List.countP (isShowCard ∘ fun u => Action.showCard (createUserCard u)) us
        = List.countP (fun _ => true) us := by
      apply List.countP_congr
      intro a _
      rfl
    rw [hall, List.countP_true]
    simp

/-- Witness for C7: one record with every field missing renders as one
card, in order. -/
theorem nonempty_list_renders_cards_in_order_witness :
    (displayUsers [UserRecord.mk none none none none none]).filter isShowCard =
      [UserRecord.mk none none none none none].map
        (fun u => Action.showCard (createUserCard u)) ∧
    (displayUsers [UserRecord.mk none none none none none]).countP isShowCard =
      [UserRecord.mk none none none none none].length :=
  nonempty_list_renders_cards_in_order [UserRecord.mk none none none none none] (by decide)

/-! ### Claim C4 (the loading indicator) -/

theorem displayUsers_no_hideLoading (us : List UserRecord) :
    ∀ a ∈ displayUsers us, isHideLoading a = false := by
  intro a ha
  simp only [displayUsers, List.cons_append, List.nil_append, List.mem_cons] at ha
  rcases ha with rfl | ha
  · rfl
  by_cases h : us = []
  · rw [if_pos h] at ha
    simp at ha
    subst ha
    rfl
  · rw [if_neg h] at ha
    rcases List.mem_map.mp ha with ⟨u, _, rfl⟩
    rfl

theorem handleError_no_hideLoading (m : String) :
    ∀ a ∈ handleError m, isHideLoading a = false := by
  intro a ha
  simp only [handleError, List.mem_singleton] at ha
  subst ha
  rfl

/-- The middle section of the pipeline trace (between the three opening
actions and the final hide) never touches the loading indicator. -/
theorem pipeline_mid_no_hideLoading (ev : TransportEvent)
    (renderFault : Option (Nat × String)) :
    ∀ a ∈ (match fetchUsers ev with
           | .ok users =>
             match renderFault with
             | none => displayUsers users
             | some (k, m) => (displayUsers users).take k ++ handleError m
           | .error msg => handleError msg : List Action),
      isHideLoading a = false := by
  intro a ha
  match hf : fetchUsers ev with
  | .ok users =>
    rw [hf] at ha
    match renderFault with
    | none => exact displayUsers_no_hideLoading users a ha
    | some (k, m) =>
      rcases List.mem_append.mp ha with h1 | h2
      · exact displayUsers_no_hideLoading users a (List.take_subset k _ h1)
      · exact handleError_no_hideLoading m a h2
  | .error msg =>
    rw [hf] at ha
    exact handleError_no_hideLoading msg a ha

/-- C4: on every execution path — success, every failure kind, and an
exception thrown during rendering — the pipeline performs the
hide-loading operation exactly once and the loading indicator ends
hidden, whatever its initial visibility. -/
theorem loading_hidden_exactly_once (ev : TransportEvent)
    (renderFault : Option (Nat × String)) (init : Bool) :
    (fetchAndDisplayUsers ev renderFault).countP isHideLoading = 1 ∧
    loadingAfter init (fetchAndDisplayUsers ev renderFault) = false := by
  constructor
  · rw [fetchAndDisplayUsers]
    rw [List.countP_append, List.countP_append]
    have h1 : ([Action.showLoading, Action.hideError,
        Action.clearContainer] : List Action).countP isHideLoading = 0 := by decide
    have h2 : ([Action.hideLoading] : List Action).countP isHideLoading = 1 := by decide
    have h3 : (match fetchUsers ev with
        | .ok users =>
          match renderFault with
          | none => displayUsers users
          | some (k, m) => (displayUsers users).take k ++ handleError m
        | .error msg => handleError msg : List Action).countP isHideLoading = 0 := by
      apply List.countP_eq_zero.mpr
      intro a ha
      simp [pipeline_mid_no_hideLoading ev renderFault a ha]
    rw [h1, h2, h3]
  · rw [fetchAndDisplayUsers, loadingAfter]
    rw [List.foldl_append, List.foldl_append]
    rfl

/-! ### Claims C5, C8, C10 (card fields) -/

/-- C5, counterexample: the claim says a present field is displayed
instead of the fallback, but a record whose `name` is present with the
empty string renders the fallback `Name not available`, not the empty
name. -/
theorem present_empty_name_shows_fallback :
    (UserRecord.mk none (some (JsVal.str "")) none none none).name = some (JsVal.str "") ∧
    (createUserCard (UserRecord.mk none (some (JsVal.str "")) none none none)).nameHTML =
      "👤 Name not available" ∧
    (createUserCard (UserRecord.mk none (some (JsVal.str "")) none none none)).nameHTML ≠
      "👤 " ++ escapeHTML (JsVal.str "").display := by
  decide

/-- C5 (amended): a missing field renders the fixed fallback string for
that field, and a field that is present with a truthy value (a non-zero
number or a non-empty string) is displayed instead of the fallback. -/
theorem createUserCard_field_resolution (u : UserRecord) :
    (u.id = none → (createUserCard u).idText = "ID: N/A") ∧
    (∀ v, u.id = some v → v.truthy = true →
      (createUserCard u).idText = "ID: " ++ v.display) ∧
    (u.name = none → (createUserCard u).nameHTML = "👤 Name not available") ∧
    (∀ v, u.name = some v → v.truthy = true →
      (createUserCard u).nameHTML = "👤 " ++ escapeHTML v.display) ∧
    (u.email = none → (createUserCard u).emailHTML = "<i>📧</i> Email: Email not available") ∧
    (∀ v, u.email = some v → v.truthy = true →
      (createUserCard u).emailHTML = "<i>📧</i> Email: " ++ escapeHTML v.display) ∧
    (u.address.bind Address.city = none →
      (createUserCard u).cityHTML = "<i>🏙️</i> City: City not available") ∧
    (∀ v, u.address.bind Address.city = some v → v.truthy = true →
      (createUserCard u).cityHTML = "<i>🏙️</i> City: " ++ escapeHTML v.display) ∧
    (u.username = none →
      (createUserCard u).usernameHTML = "<i>🔰</i> Username: Username not available") ∧
    (∀ v, u.username = some v → v.truthy = true →
      (createUserCard u).usernameHTML = "<i>🔰</i> Username: " ++ escapeHTML v.display) := by
  refine ⟨fun h => ?_, fun v h ht => ?_, fun h => ?_, fun v h ht => ?_, fun h => ?_,
    fun v h ht => ?_, fun h => ?_, fun v h ht => ?_, fun h => ?_, fun v h ht => ?_⟩ <;>
    simp [createUserCard, orFallback, h] <;> first | rfl | decide | simp [ht]

/-- Witness for C5: a record with a truthy id and a missing name. -/
theorem createUserCard_field_resolution_witness :
    (createUserCard (UserRecord.mk (some (JsVal.num 3)) none none none none)).idText =
      "ID: " ++ (JsVal.num 3).display ∧
    (createUserCard (UserRecord.mk (some (JsVal.num 3)) none none none none)).nameHTML =
      "👤 Name not available" :=
  ⟨(createUserCard_field_resolution _).2.1 (JsVal.num 3) rfl (by decide),
   (createUserCard_field_resolution _).2.2.1 rfl⟩

/-- C8, counterexample: the claim says all five display fields pass
through the escaping function, but the id badge is rendered without
escaping: an id present as the string `<b>` reaches the card text
verbatim. -/
theorem id_field_not_escaped :
    (createUserCard (UserRecord.mk (some (JsVal.str "<b>")) none none none none)).idText =
      "ID: <b>" ∧
    (createUserCard (UserRecord.mk (some (JsVal.str "<b>")) none none none none)).idText ≠
      "ID: " ++ escapeHTML (JsVal.str "<b>").display := by
  decide

/-- C8 (amended): the four fields interpolated into markup — name,
email, city, username — are each passed through `escapeHTML`, and their
escaped parts contain no literal occurrence of the escaped characters
other than the ampersand; the id badge is rendered as plain text without
the escaping function. -/
theorem markup_fields_escaped (u : UserRecord) :
    (createUserCard u).nameHTML =
      "👤 " ++ escapeHTML (orFallback u.name "Name not available") ∧
    (createUserCard u).emailHTML =
      "<i>📧</i> Email: " ++ escapeHTML (orFallback u.email "Email not available") ∧
    (createUserCard u).cityHTML =
      "<i>🏙️</i> City: " ++
        escapeHTML (orFallback (u.address.bind Address.city) "City not available") ∧
    (createUserCard u).usernameHTML =
      "<i>🔰</i> Username: " ++ escapeHTML (orFallback u.username "Username not available") ∧
    (createUserCard u).idText = "ID: " ++ orFallback u.id "N/A" ∧
    (∀ c ∈ nonAmpSpecials,
      c ∉ (escapeHTML (orFallback u.name "Name not available")).data ∧
      c ∉ (escapeHTML (orFallback u.email "Email not available")).data ∧
      c ∉ (escapeHTML (orFallback (u.address.bind Address.city) "City not available")).data ∧
      c ∉ (escapeHTML (orFallback u.username "Username not available")).data) := by
  refine ⟨rfl, rfl, rfl, rfl, rfl, fun c hc => ?_⟩
  exact ⟨escapeHTML_no_nonAmp _ c hc, escapeHTML_no_nonAmp _ c hc,
    escapeHTML_no_nonAmp _ c hc, escapeHTML_no_nonAmp _ c hc⟩

/-- Witness for C8: instantiation at the all-missing record and the
character `<`. -/
theorem markup_fields_escaped_witness :
    '<' ∉ (escapeHTML (orFallback (UserRecord.mk none none none none none).name
      "Name not available")).data :=
  ((markup_fields_escaped (UserRecord.mk none none none none none)).2.2.2.2.2
    '<' (by decide)).1

/-- C10: a field that is present but falsy (id equal to `0`, or the
empty string for name, email, username, or the nested city) renders the
same card as the record with that field absent, and shows the fixed
fallback string for that field. -/
theorem falsy_field_same_as_absent (u : UserRecord) :
    createUserCard { u with id := some (JsVal.num 0) } =
      createUserCard { u with id := none } ∧
    (createUserCard { u with id := some (JsVal.num 0) }).idText = "ID: N/A" ∧
    createUserCard { u with name := some (JsVal.str "") } =
      createUserCard { u with name := none } ∧
    (createUserCard { u with name := some (JsVal.str "") }).nameHTML =
      "👤 Name not available" ∧
    createUserCard { u with email := some (JsVal.str "") } =
      createUserCard { u with email := none } ∧
    (createUserCard { u with email := some (JsVal.str "") }).emailHTML =
      "<i>📧</i> Email: Email not available" ∧
    createUserCard { u with username := some (JsVal.str "") } =
      createUserCard { u with username := none } ∧
    (createUserCard { u with username := some (JsVal.str "") }).usernameHTML =
      "<i>🔰</i> Username: Username not available" ∧
    createUserCard { u with address := some (Address.mk (some (JsVal.str ""))) } =
      createUserCard { u with address := some (Address.mk none) } ∧
    createUserCard { u with address := some (Address.mk (some (JsVal.str ""))) } =
      createUserCard { u with address := none } ∧
    (createUserCard { u with address := some (Address.mk (some (JsVal.str ""))) }).cityHTML =
      "<i>🏙️</i> City: City not available" := by
  refine ⟨?_, ?_, ?_, ?_, ?_, ?_, ?_, ?_, ?_, ?_, ?_⟩ <;>
    simp [createUserCard, orFallback, JsVal.truthy, JsVal.display] <;> decide

end Script
